import Mathlib

/-!
Verification of the SOC extrapolation and self-calibration engine of
`custom_components/uconnect/extrapolated_soc.py`.

Python floats are modelled as exact rationals (`ℚ`), timestamps as rational
hours on an absolute axis (so Python's
`(now - t).total_seconds() / 3600.0` becomes plain subtraction `now - t`),
and `None`-able values as `Option`.  `round(x, 1)` is modelled as
round-half-to-even on tenths, which is Python 3 `round` semantics.
-/

namespace Uconnect

/-- Constant `STALE_THRESHOLD_HOURS = 2.0` from the source. -/
def STALE_THRESHOLD_HOURS : ℚ := 2

/-- Constant `DEFAULT_CORRECTION_FACTOR = 1.0`. -/
def DEFAULT_CORRECTION_FACTOR : ℚ := 1

/-- Constant `MIN_CORRECTION_FACTOR = 0.5`. -/
def MIN_CORRECTION_FACTOR : ℚ := 1/2

/-- Constant `MAX_CORRECTION_FACTOR = 1.5`. -/
def MAX_CORRECTION_FACTOR : ℚ := 3/2

/-- Constant `CORRECTION_EMA_ALPHA = 0.3`. -/
def CORRECTION_EMA_ALPHA : ℚ := 3/10

/-- Constant `MIN_TIME_FOR_LEARNING_HOURS = 0.05`. -/
def MIN_TIME_FOR_LEARNING_HOURS : ℚ := 1/20

/-- Constant `MIN_SOC_CHANGE_FOR_LEARNING = 0.5`. -/
def MIN_SOC_CHANGE_FOR_LEARNING : ℚ := 1/2

/-- Constant `DEFAULT_IDLE_DRAIN_RATE = 0.006`. -/
def DEFAULT_IDLE_DRAIN_RATE : ℚ := 3/500

/-- Constant `MIN_IDLE_DRAIN_RATE = 0.0`. -/
def MIN_IDLE_DRAIN_RATE : ℚ := 0

/-- Constant `MAX_IDLE_DRAIN_RATE = 0.04`. -/
def MAX_IDLE_DRAIN_RATE : ℚ := 1/25

/-- Constant `MIN_IDLE_TIME_FOR_LEARNING_HOURS = 1.0`. -/
def MIN_IDLE_TIME_FOR_LEARNING_HOURS : ℚ := 1

/-- Constant `IDLE_DRAIN_EMA_ALPHA = 0.2`. -/
def IDLE_DRAIN_EMA_ALPHA : ℚ := 1/5

/-- Python 3 `round` to the nearest integer: nearest, ties to even. -/
def pyRound (q : ℚ) : ℤ :=
  let f : ℤ := q.floor
  let r : ℚ := q - f
  if r < 1/2 then f
  else if 1/2 < r then f + 1
  else if f % 2 = 0 then f else f + 1

/-- Python `round(x, 1)`: round to one decimal place, ties to even. -/
def round1 (q : ℚ) : ℚ := (pyRound (10 * q) : ℚ) / 10

/-- Raw vehicle telemetry snapshot: the attributes `_update_from_vehicle`
reads off the `Vehicle` object via `getattr` (absent attributes modelled as
`none` / `false`).  `charging_level` is modelled as the Python
`str(...)` image of the raw value when present. -/
structure Vehicle where
  state_of_charge : Option ℚ
  charging : Bool
  ignition_on : Bool
  charging_level : Option String
  time_to_fully_charge_l2 : Option ℚ
  time_to_fully_charge_l3 : Option ℚ
deriving DecidableEq

/-- Dataclass `SocEstimationState` from the source. -/
structure SocEstimationState where
  last_actual_soc : Option ℚ := none
  last_actual_soc_time : Option ℚ := none
  is_charging : Bool := false
  is_idle : Bool := false
  charging_rate_pct_per_hour : ℚ := 0
  idle_drain_rate_pct_per_hour : ℚ := DEFAULT_IDLE_DRAIN_RATE
  learned_correction_factor : ℚ := DEFAULT_CORRECTION_FACTOR
  target_soc : ℚ := 100
deriving DecidableEq

/-- All-defaults `SocEstimationState()` constructor value. -/
def defaultState : SocEstimationState := {}

/-- Value stored in the persisted dictionary.  `timeStr t` stands for a
string that `datetime.fromisoformat` parses to the timestamp `t`; `str s`
is any other string.  `num` covers Python `int` and `float`; `pbool` is a
Python `bool` (which `isinstance(_, (int, float))` also accepts). -/
inductive PVal where
  | null
  | pbool (b : Bool)
  | num (q : ℚ)
  | timeStr (t : ℚ)
  | str (s : String)
deriving DecidableEq

/-- Persisted blob handed to `from_dict`: either not a `dict` at all, or a
key/value map (modelled as an association list). -/
inductive PData where
  | notDict
  | dict (entries : List (String × PVal))
deriving DecidableEq

/-- Python `data.get(k)`: the stored value, or `None` when the key is absent. -/
def pyGet (d : List (String × PVal)) (k : String) : PVal :=
  match d.find? (fun p => p.1 == k) with
  | some p => p.2
  | none => PVal.null

/-- Python `data.get(k, dflt)`: the stored value (even a stored `None`), or
`dflt` when the key is absent. -/
def pyGetD (d : List (String × PVal)) (k : String) (dflt : PVal) : PVal :=
  match d.find? (fun p => p.1 == k) with
  | some p => p.2
  | none => dflt

/-- Python truthiness `bool(x)` on a persisted value. -/
def truthy : PVal → Bool
  | PVal.null => false
  | PVal.pbool b => b
  | PVal.num q => decide ¬(q = 0)
  | PVal.timeStr _ => true
  | PVal.str s => decide ¬(s = "")

/-- Numeric reading of a persisted value: `some` exactly when Python's
`isinstance(x, (int, float))` holds (true `bool`s count as `1`, false as `0`). -/
def asNum : PVal → Option ℚ
  | PVal.pbool b => some (if b then 1 else 0)
  | PVal.num q => some q
  | _ => none

/-- Method `SocEstimationState.to_dict` from the source. -/
def to_dict (s : SocEstimationState) : PData :=
  PData.dict
    [ ("last_actual_soc",
        match s.last_actual_soc with
        | some q => PVal.num q
        | none => PVal.null),
      ("last_actual_soc_time",
        match s.last_actual_soc_time with
        | some t => PVal.timeStr t
        | none => PVal.null),
      ("is_charging", PVal.pbool s.is_charging),
      ("is_idle", PVal.pbool s.is_idle),
      ("charging_rate_pct_per_hour", PVal.num s.charging_rate_pct_per_hour),
      ("idle_drain_rate_pct_per_hour", PVal.num s.idle_drain_rate_pct_per_hour),
      ("learned_correction_factor", PVal.num s.learned_correction_factor),
      ("target_soc", PVal.num s.target_soc) ]

/-- Classmethod `SocEstimationState.from_dict` from the source: defensive
field-by-field validation of a persisted dictionary. -/
def from_dict (data : PData) : SocEstimationState :=
  match data with
  | PData.notDict => defaultState
  | PData.dict d =>
    let last_soc : Option ℚ :=
      match asNum (pyGet d "last_actual_soc") with
      | some q => some (max 0 (min 100 q))
      | none => none
    let last_time : Option ℚ :=
      match pyGet d "last_actual_soc_time" with
      | PVal.timeStr t => some t
      | _ => none
    let correction0 : ℚ :=
      match asNum (pyGetD d "learned_correction_factor"
          (pyGetD d "learned_efficiency" (PVal.num DEFAULT_CORRECTION_FACTOR))) with
      | some q => q
      | none => DEFAULT_CORRECTION_FACTOR
    let correction := max MIN_CORRECTION_FACTOR (min MAX_CORRECTION_FACTOR correction0)
    let drain0 : ℚ :=
      match asNum (pyGetD d "idle_drain_rate_pct_per_hour" (PVal.num DEFAULT_IDLE_DRAIN_RATE)) with
      | some q => q
      | none => DEFAULT_IDLE_DRAIN_RATE
    let drain := max MIN_IDLE_DRAIN_RATE (min MAX_IDLE_DRAIN_RATE drain0)
    let crate0 : ℚ :=
      match asNum (pyGetD d "charging_rate_pct_per_hour" (PVal.num 0)) with
      | some q => q
      | none => 0
    let crate := max 0 (min 300 crate0)
    let target : ℚ :=
      match asNum (pyGetD d "target_soc" (PVal.num 100)) with
      | some q => if q ≤ 0 ∨ 100 < q then 100 else q
      | none => 100
    { last_actual_soc := last_soc
      last_actual_soc_time := last_time
      is_charging := truthy (pyGetD d "is_charging" (PVal.pbool false))
      is_idle := truthy (pyGetD d "is_idle" (PVal.pbool false))
      charging_rate_pct_per_hour := crate
      idle_drain_rate_pct_per_hour := drain
      learned_correction_factor := correction
      target_soc := target }

/-- Python substring containment `pat in s` on strings. -/
def py_in (pat s : String) : Bool :=
  (List.range (s.toList.length + 1)).any
    (fun i => decide ((s.toList.drop i).take pat.toList.length = pat.toList))

/-- Helper `select_time_to_full` from the source: pick the applicable
time-to-full reading based on the charging-level sensor, with fallbacks. -/
def select_time_to_full (charging_level : Option String)
    (time_l2 time_l3 : Option ℚ) : Option ℚ :=
  let valid_l2 : Bool := match time_l2 with | some x => decide (0 < x) | none => false
  let valid_l3 : Bool := match time_l3 with | some x => decide (0 < x) | none => false
  let fallback : Option ℚ :=
    if valid_l2 && valid_l3 then
      match time_l2, time_l3 with
      | some a, some b => some (min a b)
      | _, _ => none
    else if valid_l3 then time_l3
    else if valid_l2 then time_l2
    else none
  match charging_level with
  | some lvl =>
    let level_str := lvl.toUpper
    if py_in "3" level_str || py_in "DC" level_str || py_in "FAST" level_str then
      if valid_l3 then time_l3 else fallback
    else if py_in "2" level_str || py_in "AC" level_str then
      if valid_l2 then time_l2 else fallback
    else fallback
  | none => fallback

/-- Function `calculate_charging_rate` from the source. -/
def calculate_charging_rate (current_soc : ℚ) (time_to_full_minutes : Option ℚ) : ℚ :=
  match time_to_full_minutes with
  | none => 0
  | some tm =>
    if tm < 1 then 0
    else
      let remaining_soc := 100 - current_soc
      if remaining_soc ≤ 0 then 0
      else
        let time_to_full_hours := tm / 60
        min (remaining_soc / time_to_full_hours) 300

/-- Method `_get_elapsed_hours`: hours since the last accepted baseline. -/
def get_elapsed_hours (s : SocEstimationState) (now : ℚ) : Option ℚ :=
  match s.last_actual_soc_time with
  | none => none
  | some t => some (now - t)

/-- Method `_get_current_vehicle_soc`: live vehicle SOC, falling back to
the stored baseline. -/
def get_current_vehicle_soc (v : Vehicle) (s : SocEstimationState) : Option ℚ :=
  match v.state_of_charge with
  | some q => some q
  | none => s.last_actual_soc

/-- Property `native_value`: the extrapolated SOC reading. -/
def native_value (v : Vehicle) (s : SocEstimationState) (now : ℚ) : Option ℚ :=
  match get_current_vehicle_soc v s with
  | none => none
  | some current_vehicle_soc =>
    match get_elapsed_hours s now with
    | none => some current_vehicle_soc
    | some elapsed_hours =>
      if elapsed_hours < 0 then some current_vehicle_soc
      else
        match s.last_actual_soc with
        | none => some current_vehicle_soc
        | some base_soc =>
          if s.is_idle ∧ 0 < s.idle_drain_rate_pct_per_hour then
            some (round1 (max 0 (base_soc - s.idle_drain_rate_pct_per_hour * elapsed_hours)))
          else if STALE_THRESHOLD_HOURS < elapsed_hours then
            some (round1 base_soc)
          else if ¬s.is_charging ∨ s.charging_rate_pct_per_hour ≤ 0 then
            some (round1 base_soc)
          else if s.target_soc ≤ base_soc then
            some (round1 base_soc)
          else
            let rate := s.charging_rate_pct_per_hour
            let correction := s.learned_correction_factor
            let e1 := base_soc + rate * correction * elapsed_hours
            let e2 := min e1 s.target_soc
            let e3 := max 0 (min 100 e2)
            some (round1 e3)

/-- Property `available`: the entity is available only once a SOC reading
has been accepted. -/
def available (s : SocEstimationState) : Bool :=
  s.last_actual_soc.isSome

/-- Value the sensor actually reports: Home Assistant renders an entity
whose `available` property is false as unavailable (no value), and
otherwise shows `native_value`.  This wraps the two source properties with
that framework contract. -/
def reported_estimate (v : Vehicle) (s : SocEstimationState) (now : ℚ) : Option ℚ :=
  if available s then native_value v s now else none

/-- Method `_learn_correction_factor` as a pure state transformer. -/
def learn_correction_factor (s : SocEstimationState) (current_soc now : ℚ)
    (was_charging : Bool) : SocEstimationState :=
  match s.last_actual_soc with
  | none => s
  | some last =>
    if ¬was_charging ∨ s.charging_rate_pct_per_hour ≤ 0 then s
    else
      match get_elapsed_hours s now with
      | none => s
      | some elapsed_hours =>
        if elapsed_hours < MIN_TIME_FOR_LEARNING_HOURS then s
        else
          let actual_change := current_soc - last
          if actual_change < MIN_SOC_CHANGE_FOR_LEARNING then s
          else
            let expected_change := s.charging_rate_pct_per_hour * elapsed_hours
            if expected_change < MIN_SOC_CHANGE_FOR_LEARNING ∨ expected_change = 0 then s
            else
              let observed := max MIN_CORRECTION_FACTOR
                (min MAX_CORRECTION_FACTOR (actual_change / expected_change))
              { s with learned_correction_factor :=
                  CORRECTION_EMA_ALPHA * observed
                  + (1 - CORRECTION_EMA_ALPHA) * s.learned_correction_factor }

/-- Method `_learn_drain_rate` as a pure state transformer. -/
def learn_drain_rate (s : SocEstimationState) (current_soc now : ℚ)
    (was_idle : Bool) : SocEstimationState :=
  match s.last_actual_soc with
  | none => s
  | some last =>
    if ¬was_idle then s
    else
      match get_elapsed_hours s now with
      | none => s
      | some elapsed_hours =>
        if elapsed_hours < MIN_IDLE_TIME_FOR_LEARNING_HOURS then s
        else
          let actual_change := last - current_soc
          if actual_change < MIN_SOC_CHANGE_FOR_LEARNING then s
          else
            let observed := max MIN_IDLE_DRAIN_RATE
              (min MAX_IDLE_DRAIN_RATE (actual_change / elapsed_hours))
            { s with idle_drain_rate_pct_per_hour :=
                IDLE_DRAIN_EMA_ALPHA * observed
                + (1 - IDLE_DRAIN_EMA_ALPHA) * s.idle_drain_rate_pct_per_hour }

/-- Outcome of the acceptance policy of `_update_from_vehicle` (lines
376-445 of the source): the final values of the local variables
`soc_changed` and `skip_stale_charging_data`. -/
structure IngestDecision where
  soc_changed : Bool
  skip_stale_charging_data : Bool
deriving DecidableEq

/-- Acceptance policy of `_update_from_vehicle`: the guard chain that
computes `soc_changed` and `skip_stale_charging_data` for a present
`current_soc`. -/
def ingest_decision (v : Vehicle) (s : SocEstimationState) (now current_soc : ℚ) :
    IngestDecision :=
  let soc_changed0 : Bool :=
    match s.last_actual_soc with
    | none => true
    | some last => decide ¬(current_soc = last)
  let current_extrapolated := native_value v s now
  let is_idle_now : Bool := !v.charging && !v.ignition_on
  let guard_charging_drop : Bool :=
    soc_changed0 && s.is_charging &&
      (match s.last_actual_soc with
       | some last => decide (current_soc < last)
       | none => false)
  let soc_changed1 : Bool := soc_changed0 && !guard_charging_drop
  let idle_cond : Bool := soc_changed1 && s.is_idle && is_idle_now
  let idle_accept : Bool :=
    match current_extrapolated with
    | some ex => decide (current_soc ≤ ex)
    | none => false
  let chg_cond : Bool :=
    soc_changed1 && s.is_charging && v.charging &&
      (match current_extrapolated with
       | some ex => decide (current_soc < ex)
       | none => false)
  { soc_changed :=
      if idle_cond then idle_accept
      else if chg_cond then false
      else soc_changed1
    skip_stale_charging_data :=
      guard_charging_drop || (!idle_cond && chg_cond) }

/-- Block of `_update_from_vehicle` that refreshes `is_charging`/`is_idle`
from the sample, frozen when the sample was flagged stale. -/
def apply_mode_flags (skip : Bool) (chg idl : Bool) (s : SocEstimationState) :
    SocEstimationState :=
  if skip then s else { s with is_charging := chg, is_idle := idl }

/-- Block of `_update_from_vehicle` that invokes the two learners when the
SOC changed and the sample was not flagged stale. -/
def apply_learning (skip : Bool) (current_soc now : ℚ)
    (was_charging was_idle : Bool) (s : SocEstimationState) : SocEstimationState :=
  if (!skip &&
      (match s.last_actual_soc with
       | some last => decide ¬(current_soc = last)
       | none => false)) then
    learn_drain_rate
      (learn_correction_factor s current_soc now was_charging)
      current_soc now was_idle
  else s

/-- Block of `_update_from_vehicle` that overwrites the baseline when the
sample was accepted. -/
def apply_baseline (soc_changed : Bool) (current_soc now : ℚ)
    (s : SocEstimationState) : SocEstimationState :=
  if soc_changed then
    { s with last_actual_soc := some current_soc
             last_actual_soc_time := some now }
  else s

/-- Block of `_update_from_vehicle` that recomputes the charging rate
unless the sample was flagged stale. -/
def apply_rate (skip : Bool) (charging : Bool) (time_to_full : Option ℚ)
    (current_soc : ℚ) (s : SocEstimationState) : SocEstimationState :=
  if !skip then
    if charging && time_to_full.isSome then
      { s with charging_rate_pct_per_hour :=
          calculate_charging_rate current_soc time_to_full }
    else
      { s with charging_rate_pct_per_hour := 0 }
  else s

/-- Method `_update_from_vehicle` (the SampleIngestor) as a pure state
transformer over one telemetry snapshot `v` at wall-clock `now`: the guard
chain followed by the four mutation blocks in source order, and the final
unconditional `target_soc = 100.0` write. -/
def update_from_vehicle (v : Vehicle) (s : SocEstimationState) (now : ℚ) :
    SocEstimationState :=
  match v.state_of_charge with
  | none => { s with target_soc := 100 }
  | some current_soc =>
    let time_to_full := select_time_to_full v.charging_level
      v.time_to_fully_charge_l2 v.time_to_fully_charge_l3
    let d := ingest_decision v s now current_soc
    let is_idle_now : Bool := !v.charging && !v.ignition_on
    let s4 :=
      apply_rate d.skip_stale_charging_data v.charging time_to_full current_soc
        (apply_baseline d.soc_changed current_soc now
          (apply_learning d.skip_stale_charging_data current_soc now
            s.is_charging s.is_idle
            (apply_mode_flags d.skip_stale_charging_data v.charging is_idle_now s)))
    { s4 with target_soc := 100 }

/-- Predicate on rehydrated/stored `last_actual_soc`: absent, or within 0-100. -/
def soc_in_range : Option ℚ → Prop
  | none => True
  | some q => 0 ≤ q ∧ q ≤ 100

instance : (o : Option ℚ) → Decidable (soc_in_range o)
  | none => Decidable.isTrue trivial
  | some q => inferInstanceAs (Decidable (0 ≤ q ∧ q ≤ 100))

/-- Documented clamp ranges of the three learned/derived rate fields. -/
def RangeInv (s : SocEstimationState) : Prop :=
  MIN_CORRECTION_FACTOR ≤ s.learned_correction_factor ∧
  s.learned_correction_factor ≤ MAX_CORRECTION_FACTOR ∧
  MIN_IDLE_DRAIN_RATE ≤ s.idle_drain_rate_pct_per_hour ∧
  s.idle_drain_rate_pct_per_hour ≤ MAX_IDLE_DRAIN_RATE ∧
  0 ≤ s.charging_rate_pct_per_hour ∧
  s.charging_rate_pct_per_hour ≤ 300

/-- Validity ranges of every field of a well-formed `SocEstimationState`. -/
def FieldRanges (s : SocEstimationState) : Prop :=
  RangeInv s ∧ soc_in_range s.last_actual_soc ∧
  0 < s.target_soc ∧ s.target_soc ≤ 100

/-- Mode flags are not simultaneously set. -/
def mutually_exclusive (s : SocEstimationState) : Prop :=
  ¬(s.is_charging = true ∧ s.is_idle = true)

/-- Snapshot with no usable telemetry at all. -/
def emptyVehicle : Vehicle :=
  { state_of_charge := none, charging := false, ignition_on := false,
    charging_level := none, time_to_fully_charge_l2 := none,
    time_to_fully_charge_l3 := none }

/-- Scenario input: prior mode charging with baseline 50%, sample reports 40%. -/
def chargingDropState : SocEstimationState :=
  { last_actual_soc := some 50, last_actual_soc_time := some 0,
    is_charging := true, is_idle := false,
    charging_rate_pct_per_hour := 10, idle_drain_rate_pct_per_hour := DEFAULT_IDLE_DRAIN_RATE,
    learned_correction_factor := 1, target_soc := 100 }

/-- Snapshot reporting 40% while still charging. -/
def chargingDropVehicle : Vehicle :=
  { state_of_charge := some 40, charging := true, ignition_on := false,
    charging_level := none, time_to_fully_charge_l2 := none,
    time_to_fully_charge_l3 := none }

/-- Idle state with baseline 80% at time 0 and maximal drain rate. -/
def idleRejectState : SocEstimationState :=
  { last_actual_soc := some 80, last_actual_soc_time := some 0,
    is_charging := false, is_idle := true,
    charging_rate_pct_per_hour := 0, idle_drain_rate_pct_per_hour := 1/25,
    learned_correction_factor := 1, target_soc := 100 }

/-- Snapshot reporting 77% while still idle (above the 76% extrapolation at
`now = 100`, but 3 points below the baseline). -/
def idleRejectVehicle : Vehicle :=
  { state_of_charge := some 77, charging := false, ignition_on := false,
    charging_level := none, time_to_fully_charge_l2 := none,
    time_to_fully_charge_l3 := none }

/-- Charging state whose baseline (90%) sits above its target SOC (80%). -/
def overTargetState : SocEstimationState :=
  { last_actual_soc := some 90, last_actual_soc_time := some 0,
    is_charging := true, is_idle := false,
    charging_rate_pct_per_hour := 20, idle_drain_rate_pct_per_hour := DEFAULT_IDLE_DRAIN_RATE,
    learned_correction_factor := 1, target_soc := 80 }

/-- Scenario state: baseline 60% at time 0, charging at 20%/h, correction 1.0. -/
def chargingScenarioState : SocEstimationState :=
  { last_actual_soc := some 60, last_actual_soc_time := some 0,
    is_charging := true, is_idle := false,
    charging_rate_pct_per_hour := 20, idle_drain_rate_pct_per_hour := DEFAULT_IDLE_DRAIN_RATE,
    learned_correction_factor := 1, target_soc := 100 }

/-- Idle state with fractional baseline 79.98% and drain rate 0.01%/h. -/
def idleFractionState : SocEstimationState :=
  { last_actual_soc := some (3999/50), last_actual_soc_time := some 0,
    is_charging := false, is_idle := true,
    charging_rate_pct_per_hour := 0, idle_drain_rate_pct_per_hour := 1/100,
    learned_correction_factor := 1, target_soc := 100 }

/-- Scenario state: baseline 80% at time 0, idle, drain rate 0.04%/h. -/
def idleScenarioState : SocEstimationState :=
  { last_actual_soc := some 80, last_actual_soc_time := some 0,
    is_charging := false, is_idle := true,
    charging_rate_pct_per_hour := 0, idle_drain_rate_pct_per_hour := 1/25,
    learned_correction_factor := 1, target_soc := 100 }

/-- Snapshot whose raw SOC reads 55% (used against a baseline-less state). -/
def rawOnlyVehicle : Vehicle :=
  { state_of_charge := some 55, charging := false, ignition_on := false,
    charging_level := none, time_to_fully_charge_l2 := none,
    time_to_fully_charge_l3 := none }

/-- Corrupted persisted dictionary setting both mode flags. -/
def bothFlagsDict : PData :=
  PData.dict [("is_charging", PVal.pbool true), ("is_idle", PVal.pbool true)]

/-- Persisted dictionary with an out-of-range correction factor 5.0. -/
def outOfRangeDict : PData :=
  PData.dict [("learned_correction_factor", PVal.num 5)]

/-- Persisted dictionary with a wrong-typed charging rate. -/
def wrongTypeRateDict : PData :=
  PData.dict [("charging_rate_pct_per_hour", PVal.str "bogus")]

/-- Persisted dictionary with a wrong-typed correction factor. -/
def wrongTypeCorrectionDict : PData :=
  PData.dict [("learned_correction_factor", PVal.str "fast")]

/-- Fully populated in-range state for the round-trip property. -/
def populatedState : SocEstimationState :=
  { last_actual_soc := some 70, last_actual_soc_time := some 5,
    is_charging := true, is_idle := false,
    charging_rate_pct_per_hour := 120, idle_drain_rate_pct_per_hour := 1/50,
    learned_correction_factor := 6/5, target_soc := 100 }

lemma ratFloor_eq_intFloor (q : ℚ) : q.floor = ⌊q⌋ := by
  rw [Rat.floor_def, Rat.floor_def']

lemma pyRound_eq_low (z : ℤ) (q : ℚ) (h1 : (z:ℚ) ≤ q) (h2 : q < z + 1/2) :
    pyRound q = z := by
  have hf : q.floor = z := by
    rw [ratFloor_eq_intFloor]
    exact Int.floor_eq_iff.mpr ⟨h1, by linarith⟩
  unfold pyRound
  rw [hf]
  have h3 : q - (z:ℚ) < 1/2 := by linarith
  rw [if_pos h3]

lemma pyRound_eq_high (z : ℤ) (q : ℚ) (h1 : (z:ℚ) + 1/2 < q) (h2 : q < z + 1) :
    pyRound q = z + 1 := by
  have hf : q.floor = z := by
    rw [ratFloor_eq_intFloor]
    exact Int.floor_eq_iff.mpr ⟨by linarith, h2⟩
  unfold pyRound
  rw [hf]
  have h3 : ¬(q - (z:ℚ) < 1/2) := by push_neg; linarith
  have h4 : 1/2 < q - (z:ℚ) := by linarith
  rw [if_neg h3, if_pos h4]

lemma pyRound_intCast (z : ℤ) : pyRound (z:ℚ) = z := by
  have hf : (z:ℚ).floor = z := by
    rw [ratFloor_eq_intFloor]; exact Int.floor_intCast z
  unfold pyRound
  rw [hf]
  norm_num

lemma pyRound_mono {x y : ℚ} (h : x ≤ y) : pyRound x ≤ pyRound y := by
  unfold pyRound
  rw [ratFloor_eq_intFloor, ratFloor_eq_intFloor]
  dsimp only
  rcases lt_or_le ⌊x⌋ ⌊y⌋ with hf | hf
  · have hx1 : (⌊x⌋:ℚ) ≤ x := Int.floor_le x
    split_ifs <;> omega
  · have hxy : ⌊x⌋ ≤ ⌊y⌋ := Int.floor_le_floor h
    have heq : ⌊x⌋ = ⌊y⌋ := le_antisymm hxy hf
    rw [heq]
    have hr : x - (⌊y⌋:ℚ) ≤ y - (⌊y⌋:ℚ) := by linarith
    split_ifs <;> first | omega | linarith

lemma pyRound_nonneg {q : ℚ} (h : 0 ≤ q) : 0 ≤ pyRound q := by
  unfold pyRound
  rw [ratFloor_eq_intFloor]
  dsimp only
  have h0 : (0:ℤ) ≤ ⌊q⌋ := Int.floor_nonneg.mpr h
  split_ifs <;> omega

lemma round1_mono {x y : ℚ} (h : x ≤ y) : round1 x ≤ round1 y := by
  unfold round1
  have h1 : pyRound (10 * x) ≤ pyRound (10 * y) :=
    pyRound_mono (by linarith)
  have h2 : ((pyRound (10 * x) : ℤ) : ℚ) ≤ ((pyRound (10 * y) : ℤ) : ℚ) :=
    Int.cast_le.mpr h1
  linarith

lemma round1_nonneg {q : ℚ} (h : 0 ≤ q) : 0 ≤ round1 q := by
  unfold round1
  have h1 : (0:ℤ) ≤ pyRound (10 * q) := pyRound_nonneg (by linarith)
  have h2 : ((0:ℤ):ℚ) ≤ ((pyRound (10 * q) : ℤ) : ℚ) := Int.cast_le.mpr h1
  simp only [Int.cast_zero] at h2
  linarith

lemma round1_76 : round1 76 = 76 := by
  rw [round1, show (10:ℚ) * 76 = ((760:ℤ):ℚ) by norm_num, pyRound_intCast]
  norm_num

lemma round1_80 : round1 80 = 80 := by
  rw [round1, show (10:ℚ) * 80 = ((800:ℤ):ℚ) by norm_num, pyRound_intCast]
  norm_num

lemma round1_90 : round1 90 = 90 := by
  rw [round1, show (10:ℚ) * 90 = ((900:ℤ):ℚ) by norm_num, pyRound_intCast]
  norm_num

lemma round1_100 : round1 100 = 100 := by
  rw [round1, show (10:ℚ) * 100 = ((1000:ℤ):ℚ) by norm_num, pyRound_intCast]
  norm_num

lemma round1_79_04 : round1 (1976/25) = 79 := by
  rw [round1, show (10:ℚ) * (1976/25) = 3952/5 by norm_num,
    pyRound_eq_low 790 (3952/5) (by norm_num) (by norm_num)]
  norm_num

lemma round1_79_97 : round1 (7997/100) = 80 := by
  rw [round1, show (10:ℚ) * (7997/100) = 7997/10 by norm_num,
    pyRound_eq_high 799 (7997/10) (by norm_num) (by norm_num)]
  norm_num

lemma ema_bound (lo hi al prev x : ℚ) (ha1 : 0 ≤ al) (ha2 : al ≤ 1)
    (hp1 : lo ≤ prev) (hp2 : prev ≤ hi) (hlh : lo ≤ hi) :
    lo ≤ al * max lo (min hi x) + (1 - al) * prev ∧
    al * max lo (min hi x) + (1 - al) * prev ≤ hi := by
  have h1 : lo ≤ max lo (min hi x) := le_max_left _ _
  have h2 : max lo (min hi x) ≤ hi := max_le hlh (min_le_left _ _)
  constructor <;> nlinarith

lemma learn_correction_factor_frame (s : SocEstimationState) (a b : ℚ) (c : Bool) :
    (learn_correction_factor s a b c).last_actual_soc = s.last_actual_soc ∧
    (learn_correction_factor s a b c).last_actual_soc_time = s.last_actual_soc_time ∧
    (learn_correction_factor s a b c).is_charging = s.is_charging ∧
    (learn_correction_factor s a b c).is_idle = s.is_idle ∧
    (learn_correction_factor s a b c).charging_rate_pct_per_hour
      = s.charging_rate_pct_per_hour ∧
    (learn_correction_factor s a b c).idle_drain_rate_pct_per_hour
      = s.idle_drain_rate_pct_per_hour ∧
    (learn_correction_factor s a b c).target_soc = s.target_soc := by
  unfold learn_correction_factor
  rcases hl : s.last_actual_soc with _ | l <;>
    rcases he : get_elapsed_hours s b with _ | e <;>
      simp only [hl, he] <;> (try split_ifs) <;> simp [hl]

lemma learn_drain_rate_frame (s : SocEstimationState) (a b : ℚ) (c : Bool) :
    (learn_drain_rate s a b c).last_actual_soc = s.last_actual_soc ∧
    (learn_drain_rate s a b c).last_actual_soc_time = s.last_actual_soc_time ∧
    (learn_drain_rate s a b c).is_charging = s.is_charging ∧
    (learn_drain_rate s a b c).is_idle = s.is_idle ∧
    (learn_drain_rate s a b c).charging_rate_pct_per_hour
      = s.charging_rate_pct_per_hour ∧
    (learn_drain_rate s a b c).learned_correction_factor
      = s.learned_correction_factor ∧
    (learn_drain_rate s a b c).target_soc = s.target_soc := by
  unfold learn_drain_rate
  rcases hl : s.last_actual_soc with _ | l <;>
    rcases he : get_elapsed_hours s b with _ | e <;>
      simp only [hl, he] <;> (try split_ifs) <;> simp [hl]

lemma learn_correction_factor_corr_range (s : SocEstimationState) (a b : ℚ) (c : Bool)
    (h1 : MIN_CORRECTION_FACTOR ≤ s.learned_correction_factor)
    (h2 : s.learned_correction_factor ≤ MAX_CORRECTION_FACTOR) :
    MIN_CORRECTION_FACTOR ≤ (learn_correction_factor s a b c).learned_correction_factor ∧
    (learn_correction_factor s a b c).learned_correction_factor ≤ MAX_CORRECTION_FACTOR := by
  unfold learn_correction_factor
  rcases hl : s.last_actual_soc with _ | l <;>
    rcases he : get_elapsed_hours s b with _ | e <;>
      simp only [hl, he] <;> (try split_ifs) <;> (try exact ⟨h1, h2⟩) <;>
    simp only [SocEstimationState.learned_correction_factor] <;>
    exact ema_bound MIN_CORRECTION_FACTOR MAX_CORRECTION_FACTOR CORRECTION_EMA_ALPHA
      s.learned_correction_factor _
      (by norm_num [CORRECTION_EMA_ALPHA]) (by norm_num [CORRECTION_EMA_ALPHA]) h1 h2
      (by norm_num [MIN_CORRECTION_FACTOR, MAX_CORRECTION_FACTOR])

lemma learn_drain_rate_drain_range (s : SocEstimationState) (a b : ℚ) (c : Bool)
    (h1 : MIN_IDLE_DRAIN_RATE ≤ s.idle_drain_rate_pct_per_hour)
    (h2 : s.idle_drain_rate_pct_per_hour ≤ MAX_IDLE_DRAIN_RATE) :
    MIN_IDLE_DRAIN_RATE ≤ (learn_drain_rate s a b c).idle_drain_rate_pct_per_hour ∧
    (learn_drain_rate s a b c).idle_drain_rate_pct_per_hour ≤ MAX_IDLE_DRAIN_RATE := by
  unfold learn_drain_rate
  rcases hl : s.last_actual_soc with _ | l <;>
    rcases he : get_elapsed_hours s b with _ | e <;>
      simp only [hl, he] <;> (try split_ifs) <;> (try exact ⟨h1, h2⟩) <;>
    simp only [SocEstimationState.idle_drain_rate_pct_per_hour] <;>
    exact ema_bound MIN_IDLE_DRAIN_RATE MAX_IDLE_DRAIN_RATE IDLE_DRAIN_EMA_ALPHA
      s.idle_drain_rate_pct_per_hour _
      (by norm_num [IDLE_DRAIN_EMA_ALPHA]) (by norm_num [IDLE_DRAIN_EMA_ALPHA]) h1 h2
      (by norm_num [MIN_IDLE_DRAIN_RATE, MAX_IDLE_DRAIN_RATE])

lemma calculate_charging_rate_range (soc : ℚ) (t : Option ℚ) :
    0 ≤ calculate_charging_rate soc t ∧ calculate_charging_rate soc t ≤ 300 := by
  unfold calculate_charging_rate
  rcases t with _ | tm
  · norm_num
  · dsimp only
    split_ifs with h1 h2
    · norm_num
    · norm_num
    · push_neg at h1 h2
      constructor
      · exact le_min (div_nonneg (by linarith) (by linarith)) (by norm_num)
      · exact min_le_right _ _

lemma apply_mode_flags_frame (k c i : Bool) (s : SocEstimationState) :
    (apply_mode_flags k c i s).last_actual_soc = s.last_actual_soc ∧
    (apply_mode_flags k c i s).last_actual_soc_time = s.last_actual_soc_time ∧
    (apply_mode_flags k c i s).charging_rate_pct_per_hour = s.charging_rate_pct_per_hour ∧
    (apply_mode_flags k c i s).idle_drain_rate_pct_per_hour = s.idle_drain_rate_pct_per_hour ∧
    (apply_mode_flags k c i s).learned_correction_factor = s.learned_correction_factor ∧
    (apply_mode_flags k c i s).target_soc = s.target_soc := by
  unfold apply_mode_flags
  split_ifs <;> simp

lemma apply_learning_frame (k : Bool) (a b : ℚ) (wc wi : Bool) (s : SocEstimationState) :
    (apply_learning k a b wc wi s).last_actual_soc = s.last_actual_soc ∧
    (apply_learning k a b wc wi s).last_actual_soc_time = s.last_actual_soc_time ∧
    (apply_learning k a b wc wi s).is_charging = s.is_charging ∧
    (apply_learning k a b wc wi s).is_idle = s.is_idle ∧
    (apply_learning k a b wc wi s).charging_rate_pct_per_hour = s.charging_rate_pct_per_hour ∧
    (apply_learning k a b wc wi s).target_soc = s.target_soc := by
  unfold apply_learning
  split_ifs with h
  · obtain ⟨c1, c2, c3, c4, c5, _, c7⟩ := learn_correction_factor_frame s a b wc
    obtain ⟨d1, d2, d3, d4, d5, _, d7⟩ :=
      learn_drain_rate_frame (learn_correction_factor s a b wc) a b wi
    exact ⟨d1.trans c1, d2.trans c2, d3.trans c3, d4.trans c4, d5.trans c5, d7.trans c7⟩
  · simp

lemma apply_baseline_frame (sc : Bool) (a b : ℚ) (s : SocEstimationState) :
    (apply_baseline sc a b s).is_charging = s.is_charging ∧
    (apply_baseline sc a b s).is_idle = s.is_idle ∧
    (apply_baseline sc a b s).charging_rate_pct_per_hour = s.charging_rate_pct_per_hour ∧
    (apply_baseline sc a b s).idle_drain_rate_pct_per_hour = s.idle_drain_rate_pct_per_hour ∧
    (apply_baseline sc a b s).learned_correction_factor = s.learned_correction_factor ∧
    (apply_baseline sc a b s).target_soc = s.target_soc := by
  unfold apply_baseline
  split_ifs <;> simp

lemma apply_rate_frame (k chg : Bool) (tt : Option ℚ) (a : ℚ) (s : SocEstimationState) :
    (apply_rate k chg tt a s).last_actual_soc = s.last_actual_soc ∧
    (apply_rate k chg tt a s).last_actual_soc_time = s.last_actual_soc_time ∧
    (apply_rate k chg tt a s).is_charging = s.is_charging ∧
    (apply_rate k chg tt a s).is_idle = s.is_idle ∧
    (apply_rate k chg tt a s).idle_drain_rate_pct_per_hour = s.idle_drain_rate_pct_per_hour ∧
    (apply_rate k chg tt a s).learned_correction_factor = s.learned_correction_factor ∧
    (apply_rate k chg tt a s).target_soc = s.target_soc := by
  unfold apply_rate
  split_ifs <;> simp

lemma apply_mode_flags_of_skip (c i : Bool) (s : SocEstimationState) :
    apply_mode_flags true c i s = s := by
  simp [apply_mode_flags]

lemma apply_learning_of_skip (a b : ℚ) (wc wi : Bool) (s : SocEstimationState) :
    apply_learning true a b wc wi s = s := by
  simp [apply_learning]

lemma apply_learning_of_unchanged (k : Bool) (a b : ℚ) (wc wi : Bool)
    (s : SocEstimationState) (hl : s.last_actual_soc = some a) :
    apply_learning k a b wc wi s = s := by
  unfold apply_learning
  simp [hl]

lemma apply_rate_of_skip (chg : Bool) (tt : Option ℚ) (a : ℚ) (s : SocEstimationState) :
    apply_rate true chg tt a s = s := by
  simp [apply_rate]

lemma ingest_decision_guard_drop (v : Vehicle) (s : SocEstimationState)
    (now soc l : ℚ) (hl : s.last_actual_soc = some l) (hc : s.is_charging = true)
    (hlt : soc < l) :
    ingest_decision v s now soc = ⟨false, true⟩ := by
  unfold ingest_decision
  have hne : ¬(soc = l) := ne_of_lt hlt
  simp [hl, hc, hne, hlt]

lemma ingest_skip_of_charging_stale (v : Vehicle) (s : SocEstimationState)
    (now soc l ex : ℚ) (hl : s.last_actual_soc = some l) (hc : s.is_charging = true)
    (hi : s.is_idle = false) (hvc : v.charging = true)
    (hex : native_value v s now = some ex) (hlt : soc < ex) (hne : ¬(soc = l)) :
    (ingest_decision v s now soc).skip_stale_charging_data = true := by
  unfold ingest_decision
  by_cases hltl : soc < l
  · simp [hl, hc, hne, hltl]
  · simp [hl, hc, hi, hvc, hex, hne, hltl, hlt]

lemma update_of_reject (v : Vehicle) (s : SocEstimationState) (now soc : ℚ)
    (hv : v.state_of_charge = some soc)
    (hd : ingest_decision v s now soc = ⟨false, true⟩) :
    update_from_vehicle v s now = { s with target_soc := 100 } := by
  unfold update_from_vehicle
  rw [hv]
  dsimp only
  rw [hd]
  simp [apply_mode_flags_of_skip, apply_learning_of_skip, apply_rate_of_skip,
    apply_baseline]

lemma update_corr_drain_eq (v : Vehicle) (s : SocEstimationState) (now soc : ℚ)
    (hv : v.state_of_charge = some soc)
    (h : (ingest_decision v s now soc).skip_stale_charging_data = true ∨
      s.last_actual_soc = some soc) :
    (update_from_vehicle v s now).learned_correction_factor
      = s.learned_correction_factor ∧
    (update_from_vehicle v s now).idle_drain_rate_pct_per_hour
      = s.idle_drain_rate_pct_per_hour := by
  unfold update_from_vehicle
  rw [hv]
  dsimp only
  rcases h with hskip | heq
  · rw [hskip, apply_mode_flags_of_skip, apply_learning_of_skip, apply_rate_of_skip]
    obtain ⟨_, _, _, b4, b5, _⟩ :=
      apply_baseline_frame (ingest_decision v s now soc).soc_changed soc now s
    exact ⟨by simpa using b5, by simpa using b4⟩
  · have hm1 := (apply_mode_flags_frame
      (ingest_decision v s now soc).skip_stale_charging_data v.charging
      (!v.charging && !v.ignition_on) s).1
    rw [apply_learning_of_unchanged _ _ _ _ _ _ (hm1.trans heq)]
    set s1 := apply_mode_flags (ingest_decision v s now soc).skip_stale_charging_data
      v.charging (!v.charging && !v.ignition_on) s with hs1
    obtain ⟨_, _, _, m4, m5, _⟩ := apply_mode_flags_frame
      (ingest_decision v s now soc).skip_stale_charging_data v.charging
      (!v.charging && !v.ignition_on) s
    obtain ⟨_, _, _, b4, b5, _⟩ := apply_baseline_frame
      (ingest_decision v s now soc).soc_changed soc now s1
    obtain ⟨_, _, _, _, r5, r6, _⟩ := apply_rate_frame
      (ingest_decision v s now soc).skip_stale_charging_data v.charging
      (select_time_to_full v.charging_level v.time_to_fully_charge_l2
        v.time_to_fully_charge_l3) soc (apply_baseline
          (ingest_decision v s now soc).soc_changed soc now s1)
    constructor
    · simpa using r6.trans (b5.trans m5)
    · simpa using r5.trans (b4.trans m4)

lemma native_value_idle_eq (v : Vehicle) (s : SocEstimationState) (now b t0 : ℚ)
    (hb : s.last_actual_soc = some b) (ht : s.last_actual_soc_time = some t0)
    (hi : s.is_idle = true) (hd : 0 < s.idle_drain_rate_pct_per_hour)
    (he : 0 ≤ now - t0) :
    native_value v s now
      = some (round1 (max 0 (b - s.idle_drain_rate_pct_per_hour * (now - t0)))) := by
  unfold native_value get_current_vehicle_soc get_elapsed_hours
  rcases hv : v.state_of_charge with _ | x <;>
    simp [hv, hb, ht, hi, hd, not_lt.mpr he]

lemma native_value_charging_eq (v : Vehicle) (s : SocEstimationState) (now b t0 : ℚ)
    (hb : s.last_actual_soc = some b) (ht : s.last_actual_soc_time = some t0)
    (hic : s.is_charging = true) (hii : s.is_idle = false)
    (hr : 0 < s.charging_rate_pct_per_hour)
    (he0 : 0 ≤ now - t0) (he2 : now - t0 ≤ STALE_THRESHOLD_HOURS)
    (hbt : b < s.target_soc) :
    native_value v s now
      = some (round1 (max 0 (min 100
          (min (b + s.charging_rate_pct_per_hour * s.learned_correction_factor * (now - t0))
            s.target_soc)))) := by
  unfold native_value get_current_vehicle_soc get_elapsed_hours
  rcases hv : v.state_of_charge with _ | x <;>
    simp [hv, hb, ht, hic, hii, not_lt.mpr he0, not_lt.mpr he2,
      not_le.mpr hr, not_le.mpr hbt]

lemma from_dict_ranges (data : PData) : FieldRanges (from_dict data) := by
  rcases data with _ | d
  · refine ⟨⟨?_, ?_, ?_, ?_, ?_, ?_⟩, ?_, ?_, ?_⟩ <;>
      norm_num [from_dict, defaultState, soc_in_range, MIN_CORRECTION_FACTOR,
        MAX_CORRECTION_FACTOR, MIN_IDLE_DRAIN_RATE, MAX_IDLE_DRAIN_RATE,
        DEFAULT_CORRECTION_FACTOR, DEFAULT_IDLE_DRAIN_RATE]
  · unfold from_dict FieldRanges RangeInv
    refine ⟨⟨?_, ?_, ?_, ?_, ?_, ?_⟩, ?_, ?_, ?_⟩
    · exact le_max_left _ _
    · exact max_le (by norm_num [MIN_CORRECTION_FACTOR, MAX_CORRECTION_FACTOR])
        (min_le_left _ _)
    · exact le_max_left _ _
    · exact max_le (by norm_num [MIN_IDLE_DRAIN_RATE, MAX_IDLE_DRAIN_RATE])
        (min_le_left _ _)
    · exact le_max_left _ _
    · exact max_le (by norm_num) (min_le_left _ _)
    · rcases h : asNum (pyGet d "last_actual_soc") with _ | q <;>
        simp [h, soc_in_range] <;>
        exact max_le (by norm_num) (min_le_left _ _)
    · rcases h : asNum (pyGetD d "target_soc" (PVal.num 100)) with _ | q <;>
        simp only [h]
      · norm_num
      · split_ifs with hq
        · norm_num
        · push_neg at hq
          exact hq.1
    · rcases h : asNum (pyGetD d "target_soc" (PVal.num 100)) with _ | q <;>
        simp only [h]
      · norm_num
      · split_ifs with hq
        · norm_num
        · push_neg at hq
          exact hq.2

lemma from_dict_to_dict_flags (s : SocEstimationState) :
    (from_dict (to_dict s)).is_charging = s.is_charging ∧
    (from_dict (to_dict s)).is_idle = s.is_idle := by
  unfold to_dict from_dict pyGetD
  simp [List.find?, truthy]

lemma from_dict_to_dict (s : SocEstimationState)
    (h1 : soc_in_range s.last_actual_soc)
    (h2 : MIN_CORRECTION_FACTOR ≤ s.learned_correction_factor)
    (h3 : s.learned_correction_factor ≤ MAX_CORRECTION_FACTOR)
    (h4 : MIN_IDLE_DRAIN_RATE ≤ s.idle_drain_rate_pct_per_hour)
    (h5 : s.idle_drain_rate_pct_per_hour ≤ MAX_IDLE_DRAIN_RATE)
    (h6 : 0 ≤ s.charging_rate_pct_per_hour)
    (h7 : s.charging_rate_pct_per_hour ≤ 300)
    (h8 : 0 < s.target_soc) (h9 : s.target_soc ≤ 100) :
    from_dict (to_dict s) = s := by
  obtain ⟨lsoc, ltime, chg, idl, rate, drain, corr, target⟩ := s
  simp only [MIN_CORRECTION_FACTOR, MAX_CORRECTION_FACTOR, MIN_IDLE_DRAIN_RATE,
    MAX_IDLE_DRAIN_RATE] at h2 h3 h4 h5
  unfold to_dict from_dict pyGet pyGetD
  rcases lsoc with _ | q <;> rcases ltime with _ | t <;>
    simp only [soc_in_range] at h1 <;>
    simp [List.find?, truthy, asNum, SocEstimationState.mk.injEq,
      MIN_CORRECTION_FACTOR, MAX_CORRECTION_FACTOR, MIN_IDLE_DRAIN_RATE,
      MAX_IDLE_DRAIN_RATE, DEFAULT_CORRECTION_FACTOR, DEFAULT_IDLE_DRAIN_RATE]
  all_goals try simp at h6
  all_goals try simp at h7
  all_goals try simp at h8
  all_goals try simp at h9
  all_goals try obtain ⟨h1a, h1b⟩ := h1
  all_goals repeat' apply And.intro
  all_goals try (rintro (hc | hc) <;> linarith)
  all_goals rw [min_eq_right (by linarith), max_eq_right (by linarith)]

lemma apply_learning_range (k : Bool) (a b : ℚ) (wc wi : Bool)
    (s : SocEstimationState) (h : RangeInv s) :
    RangeInv (apply_learning k a b wc wi s) := by
  unfold apply_learning
  split_ifs with hc
  · obtain ⟨r1, r2, r3, r4, r5, r6⟩ := h
    obtain ⟨f1, f2, f3, f4, f5, f6, f7⟩ := learn_correction_factor_frame s a b wc
    obtain ⟨g1, g2, g3, g4, g5, g6, g7⟩ :=
      learn_drain_rate_frame (learn_correction_factor s a b wc) a b wi
    have hcorr := learn_correction_factor_corr_range s a b wc r1 r2
    have hdr := learn_drain_rate_drain_range (learn_correction_factor s a b wc) a b wi
      (by rw [f6]; exact r3) (by rw [f6]; exact r4)
    refine ⟨?_, ?_, ?_, ?_, ?_, ?_⟩
    · rw [g6]; exact hcorr.1
    · rw [g6]; exact hcorr.2
    · exact hdr.1
    · exact hdr.2
    · rw [g5, f5]; exact r5
    · rw [g5, f5]; exact r6
  · exact h

lemma apply_rate_range (k chg : Bool) (tt : Option ℚ) (a : ℚ)
    (s : SocEstimationState) (h : RangeInv s) :
    RangeInv (apply_rate k chg tt a s) := by
  unfold apply_rate
  split_ifs with h1 h2
  · obtain ⟨r1, r2, r3, r4, _, _⟩ := h
    exact ⟨r1, r2, r3, r4, (calculate_charging_rate_range a tt).1,
      (calculate_charging_rate_range a tt).2⟩
  · obtain ⟨r1, r2, r3, r4, _, _⟩ := h
    exact ⟨r1, r2, r3, r4, by norm_num, by norm_num⟩
  · exact h

lemma update_from_vehicle_range (v : Vehicle) (s : SocEstimationState) (now : ℚ)
    (h : RangeInv s) : RangeInv (update_from_vehicle v s now) := by
  unfold update_from_vehicle
  rcases hv : v.state_of_charge with _ | soc
  · exact h
  · dsimp only
    have h1 : RangeInv (apply_mode_flags
        (ingest_decision v s now soc).skip_stale_charging_data v.charging
        (!v.charging && !v.ignition_on) s) := by
      unfold apply_mode_flags
      split_ifs
      · exact h
      · exact h
    have h2 := apply_learning_range
      (ingest_decision v s now soc).skip_stale_charging_data soc now
      s.is_charging s.is_idle _ h1
    have h3 : RangeInv (apply_baseline (ingest_decision v s now soc).soc_changed
        soc now (apply_learning (ingest_decision v s now soc).skip_stale_charging_data
          soc now s.is_charging s.is_idle (apply_mode_flags
            (ingest_decision v s now soc).skip_stale_charging_data v.charging
            (!v.charging && !v.ignition_on) s))) := by
      unfold apply_baseline
      split_ifs
      · exact h2
      · exact h2
    exact apply_rate_range _ _ _ _ _ h3

lemma mutually_exclusive_of_fields {a b : SocEstimationState}
    (h1 : a.is_charging = b.is_charging) (h2 : a.is_idle = b.is_idle)
    (h : mutually_exclusive b) : mutually_exclusive a := by
  unfold mutually_exclusive at *
  rw [h1, h2]
  exact h

lemma update_from_vehicle_excl (v : Vehicle) (s : SocEstimationState) (now : ℚ)
    (h : mutually_exclusive s) : mutually_exclusive (update_from_vehicle v s now) := by
  unfold update_from_vehicle
  rcases hv : v.state_of_charge with _ | soc
  · exact h
  · dsimp only
    have h1 : mutually_exclusive (apply_mode_flags
        (ingest_decision v s now soc).skip_stale_charging_data v.charging
        (!v.charging && !v.ignition_on) s) := by
      unfold apply_mode_flags
      split_ifs
      · exact h
      · unfold mutually_exclusive
        rintro ⟨hc, hi⟩
        simp at hc hi
        simp [hc] at hi
    have h2 := mutually_exclusive_of_fields
      (apply_learning_frame (ingest_decision v s now soc).skip_stale_charging_data
        soc now s.is_charging s.is_idle _).2.2.1
      (apply_learning_frame (ingest_decision v s now soc).skip_stale_charging_data
        soc now s.is_charging s.is_idle _).2.2.2.1 h1
    have h3 := mutually_exclusive_of_fields
      (apply_baseline_frame (ingest_decision v s now soc).soc_changed soc now _).1
      (apply_baseline_frame (ingest_decision v s now soc).soc_changed soc now _).2.1 h2
    exact mutually_exclusive_of_fields
      (apply_rate_frame (ingest_decision v s now soc).skip_stale_charging_data
        v.charging (select_time_to_full v.charging_level v.time_to_fully_charge_l2
          v.time_to_fully_charge_l3) soc _).2.2.1
      (apply_rate_frame (ingest_decision v s now soc).skip_stale_charging_data
        v.charging (select_time_to_full v.charging_level v.time_to_fully_charge_l2
          v.time_to_fully_charge_l3) soc _).2.2.2.1 h3

/-- C1: if the previously recorded mode is charging, the incoming sample's
soc is present and strictly lower than `last_actual_soc`, then ingesting
the sample leaves `last_actual_soc`, `last_actual_soc_time`, `is_charging`,
`is_idle`, `charging_rate_pct_per_hour`, `learned_correction_factor` and
`idle_drain_rate_pct_per_hour` at their prior values. -/
theorem charging_drop_rejection_preserves_state (v : Vehicle)
    (s : SocEstimationState) (now soc l : ℚ) (hv : v.state_of_charge = some soc)
    (hc : s.is_charging = true) (hl : s.last_actual_soc = some l) (hlt : soc < l) :
    (update_from_vehicle v s now).last_actual_soc = s.last_actual_soc ∧
    (update_from_vehicle v s now).last_actual_soc_time = s.last_actual_soc_time ∧
    (update_from_vehicle v s now).is_charging = s.is_charging ∧
    (update_from_vehicle v s now).is_idle = s.is_idle ∧
    (update_from_vehicle v s now).charging_rate_pct_per_hour
      = s.charging_rate_pct_per_hour ∧
    (update_from_vehicle v s now).learned_correction_factor
      = s.learned_correction_factor ∧
    (update_from_vehicle v s now).idle_drain_rate_pct_per_hour
      = s.idle_drain_rate_pct_per_hour := by
  rw [update_of_reject v s now soc hv
    (ingest_decision_guard_drop v s now soc l hl hc hlt)]
  exact ⟨rfl, rfl, rfl, rfl, rfl, rfl, rfl⟩

/-- Witness for C1: prior mode charging with baseline 50%, sample 40%. -/
theorem charging_drop_rejection_witness :
    chargingDropVehicle.state_of_charge = some 40 ∧
    chargingDropState.is_charging = true ∧
    chargingDropState.last_actual_soc = some 50 ∧
    (40:ℚ) < 50 ∧
    ((update_from_vehicle chargingDropVehicle chargingDropState 1).last_actual_soc
        = chargingDropState.last_actual_soc ∧
      (update_from_vehicle chargingDropVehicle chargingDropState 1).last_actual_soc_time
        = chargingDropState.last_actual_soc_time ∧
      (update_from_vehicle chargingDropVehicle chargingDropState 1).is_charging
        = chargingDropState.is_charging ∧
      (update_from_vehicle chargingDropVehicle chargingDropState 1).is_idle
        = chargingDropState.is_idle ∧
      (update_from_vehicle chargingDropVehicle chargingDropState 1).charging_rate_pct_per_hour
        = chargingDropState.charging_rate_pct_per_hour ∧
      (update_from_vehicle chargingDropVehicle chargingDropState 1).learned_correction_factor
        = chargingDropState.learned_correction_factor ∧
      (update_from_vehicle chargingDropVehicle chargingDropState 1).idle_drain_rate_pct_per_hour
        = chargingDropState.idle_drain_rate_pct_per_hour) :=
  ⟨rfl, rfl, rfl, by norm_num,
    charging_drop_rejection_preserves_state chargingDropVehicle chargingDropState
      1 40 50 rfl rfl rfl (by norm_num)⟩

/-- C5: with no accepted sample (`last_actual_soc = none`) the entity is
unavailable and hence reports no estimate, regardless of the raw vehicle
snapshot. -/
theorem no_baseline_reports_nothing (v : Vehicle) (s : SocEstimationState)
    (now : ℚ) (h : s.last_actual_soc = none) :
    available s = false ∧ reported_estimate v s now = none := by
  constructor
  · simp [available, h]
  · simp [reported_estimate, available, h]

/-- Witness for C5: default state, snapshot reporting a raw SOC of 55%. -/
theorem no_baseline_reports_nothing_witness :
    defaultState.last_actual_soc = none ∧
    rawOnlyVehicle.state_of_charge = some 55 ∧
    (available defaultState = false ∧
      reported_estimate rawOnlyVehicle defaultState 0 = none) :=
  ⟨rfl, rfl, no_baseline_reports_nothing rawOnlyVehicle defaultState 0 rfl⟩

/-- C6: `calculate_charging_rate` returns 0 for an absent or sub-minute
time-to-full or non-positive remaining SOC, otherwise equals the remaining
SOC divided by hours-to-full capped at 300; for soc in 0-100 and time at
least one minute the result lies in 0-300. -/
theorem calculate_charging_rate_spec :
    (∀ soc : ℚ, calculate_charging_rate soc none = 0) ∧
    (∀ soc t : ℚ, t < 1 → calculate_charging_rate soc (some t) = 0) ∧
    (∀ soc t : ℚ, 100 - soc ≤ 0 → calculate_charging_rate soc (some t) = 0) ∧
    (∀ soc t : ℚ, 1 ≤ t → 0 < 100 - soc →
      calculate_charging_rate soc (some t) = min ((100 - soc) / (t / 60)) 300) ∧
    (∀ soc t : ℚ, 0 ≤ soc → soc ≤ 100 → 1 ≤ t →
      0 ≤ calculate_charging_rate soc (some t) ∧
      calculate_charging_rate soc (some t) ≤ 300) := by
  refine ⟨fun soc => rfl, ?_, ?_, ?_, ?_⟩
  · intro soc t ht
    unfold calculate_charging_rate
    dsimp only
    rw [if_pos ht]
  · intro soc t h
    unfold calculate_charging_rate
    dsimp only
    split_ifs with h1 h2
    all_goals try rfl
    all_goals exact absurd h h2
  · intro soc t h1 h2
    unfold calculate_charging_rate
    dsimp only
    rw [if_neg (not_lt.mpr h1), if_neg (not_le.mpr h2)]
  · intro soc t h0 h100 h1
    exact calculate_charging_rate_range soc (some t)

/-- Witness for C6 at soc 50 and soc 100. -/
theorem calculate_charging_rate_spec_witness :
    ((1:ℚ)/2 < 1 ∧ calculate_charging_rate 50 (some (1/2)) = 0) ∧
    (100 - (100:ℚ) ≤ 0 ∧ calculate_charging_rate 100 (some 5) = 0) ∧
    (1 ≤ (30:ℚ) ∧ 0 < 100 - (50:ℚ) ∧
      calculate_charging_rate 50 (some 30) = min ((100 - 50) / (30 / 60)) 300) ∧
    (0 ≤ (50:ℚ) ∧ (50:ℚ) ≤ 100 ∧ 0 ≤ calculate_charging_rate 50 (some 30) ∧
      calculate_charging_rate 50 (some 30) ≤ 300) :=
  ⟨⟨by norm_num, calculate_charging_rate_spec.2.1 50 (1/2) (by norm_num)⟩,
    ⟨by norm_num, calculate_charging_rate_spec.2.2.1 100 5 (by norm_num)⟩,
    ⟨by norm_num, by norm_num,
      calculate_charging_rate_spec.2.2.2.1 50 30 (by norm_num) (by norm_num)⟩,
    ⟨by norm_num, by norm_num,
      calculate_charging_rate_spec.2.2.2.2 50 30 (by norm_num) (by norm_num) (by norm_num)⟩⟩

/-- C7: rehydration always lands the three rate fields in their clamps, and
both learning steps and full ingestion preserve the clamps from in-range
starting values. -/
theorem clamp_invariants :
    (∀ data, RangeInv (from_dict data)) ∧
    (∀ (s : SocEstimationState) (a b : ℚ) (c : Bool),
      RangeInv s → RangeInv (learn_correction_factor s a b c)) ∧
    (∀ (s : SocEstimationState) (a b : ℚ) (c : Bool),
      RangeInv s → RangeInv (learn_drain_rate s a b c)) ∧
    (∀ (v : Vehicle) (s : SocEstimationState) (now : ℚ),
      RangeInv s → RangeInv (update_from_vehicle v s now)) := by
  refine ⟨fun d => (from_dict_ranges d).1, ?_, ?_,
    fun v s now h => update_from_vehicle_range v s now h⟩
  · intro s a b c h
    obtain ⟨r1, r2, r3, r4, r5, r6⟩ := h
    obtain ⟨f1, f2, f3, f4, f5, f6, f7⟩ := learn_correction_factor_frame s a b c
    have hc := learn_correction_factor_corr_range s a b c r1 r2
    exact ⟨hc.1, hc.2, by rw [f6]; exact r3, by rw [f6]; exact r4,
      by rw [f5]; exact r5, by rw [f5]; exact r6⟩
  · intro s a b c h
    obtain ⟨r1, r2, r3, r4, r5, r6⟩ := h
    obtain ⟨g1, g2, g3, g4, g5, g6, g7⟩ := learn_drain_rate_frame s a b c
    have hd := learn_drain_rate_drain_range s a b c r3 r4
    exact ⟨by rw [g6]; exact r1, by rw [g6]; exact r2, hd.1, hd.2,
      by rw [g5]; exact r5, by rw [g5]; exact r6⟩

/-- Witness for C7 at the default state. -/
theorem clamp_invariants_witness :
    RangeInv defaultState ∧
    RangeInv (from_dict PData.notDict) ∧
    RangeInv (learn_correction_factor defaultState 50 1 true) ∧
    RangeInv (learn_drain_rate defaultState 50 1 true) ∧
    RangeInv (update_from_vehicle rawOnlyVehicle defaultState 0) := by
  have h0 : RangeInv defaultState := by
    norm_num [RangeInv, defaultState, MIN_CORRECTION_FACTOR, MAX_CORRECTION_FACTOR,
      MIN_IDLE_DRAIN_RATE, MAX_IDLE_DRAIN_RATE, DEFAULT_CORRECTION_FACTOR,
      DEFAULT_IDLE_DRAIN_RATE]
  exact ⟨h0, clamp_invariants.1 PData.notDict,
    clamp_invariants.2.1 defaultState 50 1 true h0,
    clamp_invariants.2.2.1 defaultState 50 1 true h0,
    clamp_invariants.2.2.2 rawOnlyVehicle defaultState 0 h0⟩

/-- Counterexample for C8 as stated: rehydrating a persisted dictionary
that stores both flags as `true` yields a state with `is_charging` and
`is_idle` simultaneously true — `from_dict` never cross-checks the pair. -/
theorem mode_flags_counterexample :
    (from_dict bothFlagsDict).is_charging = true ∧
    (from_dict bothFlagsDict).is_idle = true ∧
    ¬mutually_exclusive (from_dict bothFlagsDict) := by
  have h1 : (from_dict bothFlagsDict).is_charging = true := by
    simp [from_dict, bothFlagsDict, pyGetD, truthy, List.find?]
  have h2 : (from_dict bothFlagsDict).is_idle = true := by
    simp [from_dict, bothFlagsDict, pyGetD, truthy, List.find?]
  exact ⟨h1, h2, fun hme => hme ⟨h1, h2⟩⟩

/-- C8 amended: the mode flags are never both true in the default state,
ingestion preserves that exclusivity, and rehydrating a dictionary that was
serialized from an exclusive state preserves it; only rehydration of a
corrupted dictionary carrying both flags can violate it. -/
theorem mode_flags_exclusive_amended :
    mutually_exclusive defaultState ∧
    (∀ (v : Vehicle) (s : SocEstimationState) (now : ℚ),
      mutually_exclusive s → mutually_exclusive (update_from_vehicle v s now)) ∧
    (∀ s : SocEstimationState,
      mutually_exclusive s → mutually_exclusive (from_dict (to_dict s))) := by
  refine ⟨?_, fun v s now h => update_from_vehicle_excl v s now h, ?_⟩
  · rintro ⟨hc, _⟩
    simp [defaultState] at hc
  · intro s h
    obtain ⟨f1, f2⟩ := from_dict_to_dict_flags s
    exact mutually_exclusive_of_fields f1 f2 h

/-- Witness for C8: an exclusive charging state stays exclusive through
ingestion and through a serialization round trip. -/
theorem mode_flags_exclusive_witness :
    mutually_exclusive chargingDropState ∧
    mutually_exclusive (update_from_vehicle chargingDropVehicle chargingDropState 1) ∧
    mutually_exclusive (from_dict (to_dict chargingDropState)) := by
  have h : mutually_exclusive chargingDropState := by
    rintro ⟨_, hi⟩
    simp [chargingDropState] at hi
  exact ⟨h, mode_flags_exclusive_amended.2.1 chargingDropVehicle chargingDropState 1 h,
    mode_flags_exclusive_amended.2.2 chargingDropState h⟩

/-- Counterexample for C9 as stated: an out-of-range persisted correction
factor of 5.0 is clamped to 1.5, which is neither the field's default 1.0
nor the stored value. -/
theorem from_dict_clamps_counterexample :
    (from_dict outOfRangeDict).learned_correction_factor = 3/2 ∧
    (3:ℚ)/2 ≠ DEFAULT_CORRECTION_FACTOR ∧
    (3:ℚ)/2 ≠ 5 := by
  refine ⟨?_, by norm_num [DEFAULT_CORRECTION_FACTOR], by norm_num⟩
  have : min MAX_CORRECTION_FACTOR (5:ℚ) = 3/2 := by
    norm_num [MAX_CORRECTION_FACTOR]
  simp [from_dict, outOfRangeDict, pyGetD, pyGet, asNum, List.find?,
    MIN_CORRECTION_FACTOR, MAX_CORRECTION_FACTOR]
  norm_num

/-- C9 amended: rehydration is total — a non-dict input yields the default
state, every field of any rehydrated state satisfies its range invariant
(wrong-typed fields fall back to defaults and out-of-range numeric values
are clamped into range, with an out-of-range `target_soc` replaced by its
default), and no out-of-range value is ever propagated. -/
theorem from_dict_defensive_amended :
    from_dict PData.notDict = defaultState ∧
    (∀ data, FieldRanges (from_dict data)) ∧
    (from_dict wrongTypeRateDict).charging_rate_pct_per_hour = 0 ∧
    (from_dict wrongTypeCorrectionDict).learned_correction_factor
      = DEFAULT_CORRECTION_FACTOR := by
  refine ⟨rfl, from_dict_ranges, ?_, ?_⟩
  · simp [from_dict, wrongTypeRateDict, pyGetD, asNum, List.find?]
  · simp [from_dict, wrongTypeCorrectionDict, pyGetD, asNum, List.find?,
      MIN_CORRECTION_FACTOR, MAX_CORRECTION_FACTOR, DEFAULT_CORRECTION_FACTOR]
    norm_num

/-- C10: serializing any state whose fields are within their documented
ranges and rehydrating it reproduces the state exactly. -/
theorem serialization_roundtrip (s : SocEstimationState) (h : FieldRanges s) :
    from_dict (to_dict s) = s := by
  obtain ⟨⟨r1, r2, r3, r4, r5, r6⟩, hsoc, ht1, ht2⟩ := h
  exact from_dict_to_dict s hsoc r1 r2 r3 r4 r5 r6 ht1 ht2

/-- Witness for C10: round trip at a fully populated state and at the
all-defaults state. -/
theorem serialization_roundtrip_witness :
    FieldRanges populatedState ∧ FieldRanges defaultState ∧
    from_dict (to_dict populatedState) = populatedState ∧
    from_dict (to_dict defaultState) = defaultState := by
  have h1 : FieldRanges populatedState := by
    norm_num [FieldRanges, RangeInv, soc_in_range, populatedState,
      MIN_CORRECTION_FACTOR, MAX_CORRECTION_FACTOR, MIN_IDLE_DRAIN_RATE,
      MAX_IDLE_DRAIN_RATE]
  have h2 : FieldRanges defaultState := by
    norm_num [FieldRanges, RangeInv, soc_in_range, defaultState,
      MIN_CORRECTION_FACTOR, MAX_CORRECTION_FACTOR, MIN_IDLE_DRAIN_RATE,
      MAX_IDLE_DRAIN_RATE, DEFAULT_CORRECTION_FACTOR, DEFAULT_IDLE_DRAIN_RATE]
  exact ⟨h1, h2, serialization_roundtrip populatedState h1,
    serialization_roundtrip defaultState h2⟩

lemma native_value_idleReject :
    native_value idleRejectVehicle idleRejectState 100 = some 76 := by
  rw [native_value_idle_eq idleRejectVehicle idleRejectState 100 80 0 rfl rfl rfl
    (by norm_num [idleRejectState]) (by norm_num)]
  norm_num [idleRejectState, round1_76]

lemma ingest_decision_idleReject :
    ingest_decision idleRejectVehicle idleRejectState 100 77 = ⟨false, false⟩ := by
  unfold ingest_decision
  rw [native_value_idleReject]
  norm_num [idleRejectState, idleRejectVehicle]

/-- Counterexample for C2 as stated: the sample 77% is rejected by the
idle-to-idle guard (baseline stays 80% at time 0), yet the drain-rate
learner still runs and moves `idle_drain_rate_pct_per_hour` from 0.04 to
0.038 — learning is keyed on `skip_stale_charging_data` alone, not on
acceptance. -/
theorem idle_reject_still_learns :
    (update_from_vehicle idleRejectVehicle idleRejectState 100).last_actual_soc
      = some 80 ∧
    (update_from_vehicle idleRejectVehicle idleRejectState 100).last_actual_soc_time
      = some 0 ∧
    idleRejectState.idle_drain_rate_pct_per_hour = 1/25 ∧
    (update_from_vehicle idleRejectVehicle idleRejectState 100).idle_drain_rate_pct_per_hour
      = 19/500 ∧
    ((19:ℚ)/500 ≠ 1/25) := by
  have hv0 : idleRejectVehicle.state_of_charge = some 77 := rfl
  unfold update_from_vehicle
  rw [hv0]
  dsimp only
  rw [ingest_decision_idleReject]
  norm_num [apply_mode_flags, apply_learning, apply_baseline, apply_rate,
    learn_correction_factor, learn_drain_rate, get_elapsed_hours,
    idleRejectState, idleRejectVehicle, select_time_to_full,
    calculate_charging_rate, MIN_IDLE_TIME_FOR_LEARNING_HOURS,
    MIN_SOC_CHANGE_FOR_LEARNING, MIN_TIME_FOR_LEARNING_HOURS,
    IDLE_DRAIN_EMA_ALPHA, MIN_IDLE_DRAIN_RATE, MAX_IDLE_DRAIN_RATE]

/-- C2 amended: the Learner is frozen exactly on the charging staleness
rejections: when the previous mode is charging (and not idle) with a
baseline present, and the sample either drops below the baseline or — still
charging — falls below the extrapolated estimate, both learned fields are
left unchanged.  A sample rejected only by the idle-to-idle guard may still
feed the drain-rate learner. -/
theorem learner_frozen_on_charging_stale (v : Vehicle) (s : SocEstimationState)
    (now soc l : ℚ) (hv : v.state_of_charge = some soc)
    (hc : s.is_charging = true) (hi : s.is_idle = false)
    (hl : s.last_actual_soc = some l)
    (hg : soc < l ∨ (v.charging = true ∧
      ∃ ex, native_value v s now = some ex ∧ soc < ex)) :
    (update_from_vehicle v s now).learned_correction_factor
      = s.learned_correction_factor ∧
    (update_from_vehicle v s now).idle_drain_rate_pct_per_hour
      = s.idle_drain_rate_pct_per_hour := by
  apply update_corr_drain_eq v s now soc hv
  by_cases hsl : soc = l
  · right
    rw [hsl]
    exact hl
  · left
    rcases hg with hlt | ⟨hvc, ex, hex, hlt⟩
    · rw [ingest_decision_guard_drop v s now soc l hl hc hlt]
    · exact ingest_skip_of_charging_stale v s now soc l ex hl hc hi hvc hex hlt hsl

/-- Witness for C2: the 40%-while-charging sample of the monotonic
rejection scenario leaves both learned fields untouched. -/
theorem learner_frozen_witness :
    chargingDropVehicle.state_of_charge = some 40 ∧
    chargingDropState.is_charging = true ∧
    chargingDropState.is_idle = false ∧
    chargingDropState.last_actual_soc = some 50 ∧
    (40:ℚ) < 50 ∧
    ((update_from_vehicle chargingDropVehicle chargingDropState 2).learned_correction_factor
        = chargingDropState.learned_correction_factor ∧
      (update_from_vehicle chargingDropVehicle chargingDropState 2).idle_drain_rate_pct_per_hour
        = chargingDropState.idle_drain_rate_pct_per_hour) :=
  ⟨rfl, rfl, rfl, rfl, by norm_num,
    learner_frozen_on_charging_stale chargingDropVehicle chargingDropState 2 40 50
      rfl rfl rfl rfl (Or.inl (by norm_num))⟩

lemma native_value_overTarget :
    native_value emptyVehicle overTargetState (1/2) = some 90 := by
  norm_num [native_value, get_current_vehicle_soc, get_elapsed_hours,
    overTargetState, emptyVehicle, STALE_THRESHOLD_HOURS, round1_90]

/-- Counterexample for C3 as stated: with baseline 90% above a persisted
target of 80% while charging at 20 %/h within the staleness window, the
code returns the rounded baseline 90.0, while the claimed clamped formula
yields 80.0 — and 90.0 exceeds `target_soc`. -/
theorem charging_extrapolation_counterexample :
    overTargetState.last_actual_soc = some 90 ∧
    overTargetState.is_charging = true ∧
    overTargetState.is_idle = false ∧
    overTargetState.charging_rate_pct_per_hour = 20 ∧
    overTargetState.target_soc = 80 ∧
    native_value emptyVehicle overTargetState (1/2) = some 90 ∧
    round1 (max 0 (min 100 (min (90 + 20 * 1 * ((1:ℚ)/2 - 0)) 80))) = 80 ∧
    ¬((90:ℚ) ≤ 80) := by
  refine ⟨rfl, rfl, rfl, rfl, rfl, native_value_overTarget, ?_, by norm_num⟩
  norm_num [round1_80]

/-- C3 amended: when additionally the baseline is non-negative and strictly
below `target_soc` (the case the source extrapolates at all), the estimate
equals the baseline plus rate times correction times elapsed hours clamped
to the interval from 0 to the smaller of 100 and `target_soc`, rounded to
one decimal; the clamped value never exceeds `target_soc`, and with the
engine's pinned `target_soc = 100` neither does the rounded estimate; the
60% / 20 %/h / 1 h scenario yields exactly 80.0. -/
theorem charging_extrapolation_formula (v : Vehicle) (s : SocEstimationState)
    (now t0 b : ℚ) (hb : s.last_actual_soc = some b) (hb0 : 0 ≤ b)
    (ht : s.last_actual_soc_time = some t0) (hic : s.is_charging = true)
    (hii : s.is_idle = false) (hr : 0 < s.charging_rate_pct_per_hour)
    (he0 : 0 ≤ now - t0) (he2 : now - t0 ≤ STALE_THRESHOLD_HOURS)
    (hbt : b < s.target_soc) :
    native_value v s now = some (round1 (max 0 (min 100
      (min (b + s.charging_rate_pct_per_hour * s.learned_correction_factor * (now - t0))
        s.target_soc)))) ∧
    max 0 (min 100
      (min (b + s.charging_rate_pct_per_hour * s.learned_correction_factor * (now - t0))
        s.target_soc)) ≤ s.target_soc ∧
    (s.target_soc = 100 →
      round1 (max 0 (min 100
        (min (b + s.charging_rate_pct_per_hour * s.learned_correction_factor * (now - t0))
          s.target_soc))) ≤ s.target_soc) ∧
    native_value emptyVehicle chargingScenarioState 1 = some 80 := by
  refine ⟨native_value_charging_eq v s now b t0 hb ht hic hii hr he0 he2 hbt,
    ?_, ?_, ?_⟩
  · exact max_le (by linarith) (le_trans (min_le_right _ _) (min_le_right _ _))
  · intro h100
    rw [h100]
    exact (round1_mono (max_le (by norm_num) (min_le_left _ _))).trans
      (le_of_eq round1_100)
  · rw [native_value_charging_eq emptyVehicle chargingScenarioState 1 60 0 rfl rfl
      rfl rfl (by norm_num [chargingScenarioState]) (by norm_num)
      (by norm_num [STALE_THRESHOLD_HOURS]) (by norm_num [chargingScenarioState])]
    norm_num [chargingScenarioState, round1_80]

/-- Witness for C3 at the 60% / 20 %/h / correction 1.0 / 1 h scenario. -/
theorem charging_extrapolation_witness :
    chargingScenarioState.last_actual_soc = some 60 ∧
    0 ≤ (60:ℚ) ∧
    chargingScenarioState.is_charging = true ∧
    chargingScenarioState.is_idle = false ∧
    0 < chargingScenarioState.charging_rate_pct_per_hour ∧
    0 ≤ (1:ℚ) - 0 ∧ (1:ℚ) - 0 ≤ STALE_THRESHOLD_HOURS ∧
    (60:ℚ) < chargingScenarioState.target_soc ∧
    (native_value emptyVehicle chargingScenarioState 1
        = some (round1 (max 0 (min 100 (min (60 +
          chargingScenarioState.charging_rate_pct_per_hour *
          chargingScenarioState.learned_correction_factor * (1 - 0))
          chargingScenarioState.target_soc)))) ∧
      max 0 (min 100 (min (60 +
          chargingScenarioState.charging_rate_pct_per_hour *
          chargingScenarioState.learned_correction_factor * (1 - 0))
          chargingScenarioState.target_soc)) ≤ chargingScenarioState.target_soc ∧
      (chargingScenarioState.target_soc = 100 →
        round1 (max 0 (min 100 (min (60 +
          chargingScenarioState.charging_rate_pct_per_hour *
          chargingScenarioState.learned_correction_factor * (1 - 0))
          chargingScenarioState.target_soc))) ≤ chargingScenarioState.target_soc) ∧
      native_value emptyVehicle chargingScenarioState 1 = some 80) :=
  ⟨rfl, by norm_num, rfl, rfl, by norm_num [chargingScenarioState], by norm_num,
    by norm_num [STALE_THRESHOLD_HOURS], by norm_num [chargingScenarioState],
    charging_extrapolation_formula emptyVehicle chargingScenarioState 1 0 60 rfl
      (by norm_num) rfl rfl rfl (by norm_num [chargingScenarioState])
      (by norm_num) (by norm_num [STALE_THRESHOLD_HOURS])
      (by norm_num [chargingScenarioState])⟩

lemma native_value_idleFraction :
    native_value emptyVehicle idleFractionState 1 = some 80 := by
  rw [native_value_idle_eq emptyVehicle idleFractionState 1 (3999/50) 0 rfl rfl rfl
    (by norm_num [idleFractionState]) (by norm_num)]
  norm_num [idleFractionState, round1_79_97]

/-- Counterexample for C4 as stated: with fractional baseline 79.98% and
drain 0.01 %/h over one hour the unrounded value is 79.97 but the reported
estimate rounds up to 80.0, which exceeds the prior baseline. -/
theorem idle_drain_counterexample :
    idleFractionState.last_actual_soc = some (3999/50) ∧
    idleFractionState.is_idle = true ∧
    0 < idleFractionState.idle_drain_rate_pct_per_hour ∧
    native_value emptyVehicle idleFractionState 1 = some 80 ∧
    (3999:ℚ)/50 < 80 :=
  ⟨rfl, rfl, by norm_num [idleFractionState], native_value_idleFraction, by norm_num⟩

/-- C4 amended: for a non-negative baseline the idle estimate equals
`max 0 (baseline - drain * elapsed)` rounded to one decimal, with no
staleness ceiling; it is never below 0 and never above the prior baseline
rounded to one decimal (rounding can push it up to 0.05 above the exact
baseline); the 80% / 0.04 %/h / 24 h scenario yields 79.0. -/
theorem idle_drain_formula (v : Vehicle) (s : SocEstimationState)
    (now t0 b : ℚ) (hb : s.last_actual_soc = some b) (hb0 : 0 ≤ b)
    (ht : s.last_actual_soc_time = some t0) (hi : s.is_idle = true)
    (hd : 0 < s.idle_drain_rate_pct_per_hour) (he : 0 ≤ now - t0) :
    native_value v s now
      = some (round1 (max 0 (b - s.idle_drain_rate_pct_per_hour * (now - t0)))) ∧
    0 ≤ round1 (max 0 (b - s.idle_drain_rate_pct_per_hour * (now - t0))) ∧
    round1 (max 0 (b - s.idle_drain_rate_pct_per_hour * (now - t0))) ≤ round1 b ∧
    native_value emptyVehicle idleScenarioState 24 = some 79 := by
  refine ⟨native_value_idle_eq v s now b t0 hb ht hi hd he,
    round1_nonneg (le_max_left 0 _), ?_, ?_⟩
  · apply round1_mono
    have hprod : 0 ≤ s.idle_drain_rate_pct_per_hour * (now - t0) :=
      mul_nonneg (le_of_lt hd) he
    exact max_le hb0 (by linarith)
  · rw [native_value_idle_eq emptyVehicle idleScenarioState 24 80 0 rfl rfl rfl
      (by norm_num [idleScenarioState]) (by norm_num)]
    norm_num [idleScenarioState, round1_79_04]

/-- Witness for C4 at the 80% / 0.04 %/h / 24 h scenario. -/
theorem idle_drain_witness :
    idleScenarioState.last_actual_soc = some 80 ∧
    0 ≤ (80:ℚ) ∧
    idleScenarioState.is_idle = true ∧
    0 < idleScenarioState.idle_drain_rate_pct_per_hour ∧
    0 ≤ (24:ℚ) - 0 ∧
    (native_value emptyVehicle idleScenarioState 24
        = some (round1 (max 0 (80 -
          idleScenarioState.idle_drain_rate_pct_per_hour * (24 - 0)))) ∧
      0 ≤ round1 (max 0 (80 -
          idleScenarioState.idle_drain_rate_pct_per_hour * (24 - 0))) ∧
      round1 (max 0 (80 -
          idleScenarioState.idle_drain_rate_pct_per_hour * (24 - 0))) ≤ round1 80 ∧
      native_value emptyVehicle idleScenarioState 24 = some 79) :=
  ⟨rfl, by norm_num, rfl, by norm_num [idleScenarioState], by norm_num,
    idle_drain_formula emptyVehicle idleScenarioState 24 0 80 rfl (by norm_num)
      rfl rfl (by norm_num [idleScenarioState]) (by norm_num)⟩

end Uconnect
